import Mathlib

/-!
Verification of the JK7938 SHEPD G7/4 fault-level study scripts.

This file gives a shallow embedding, in Lean 4, of the parts of the
repository that the checked claims are about:

* `src/g74/file_handling.py` — spreadsheet column-label helpers
  (`colnum_string` / `colstring_number`), busbar-list import
  (`import_busbars_list`) and worksheet-name deduplication
  (`worksheet_name_checker`);
* `src/g74/constants.py` — the `Machines`, `SHEPD` and `G74` constant
  tables (column names, default time constants, equivalent-machine
  per-unit parameters);
* `src/g74/psse.py` — the PSSE driving layer: `PsseControl`
  (`load_data_case`, `convert_sav_case`, `convert_gen`, `convert_load`),
  `MachineData.produce_idev` and `BkdyFaultStudy.main`.

The PSSE engine itself (`psspy`) is external: it is modelled by an
environment `Env` that fixes the status codes and counts each engine
call would return.  Each modelled method returns both the list of engine
calls it performed (its trace) and either a normal result or the Python
exception it raised, so that claims about "X is invoked / not invoked"
and "an error is raised / only logged" become statements about the
trace and the outcome.
-/

/-! ## file_handling.py: column-label helpers -/

/-- Embeds `colnum_string` (src/g74/file_handling.py lines 22-27) at the
level of the character list it builds: while `n > 0` the Python loop sets
`n, remainder = divmod(n - 1, 26)` and prepends `chr(65 + remainder)`,
so the list for `n+1` is the list for `n / 26` with the character
`chr(65 + n % 26)` appended. -/
def colnum_chars : Nat → List Char
  | 0 => []
  | n + 1 => colnum_chars (n / 26) ++ [Char.ofNat (65 + n % 26)]
decreasing_by exact Nat.lt_succ_of_le (Nat.div_le_self n 26)

/-- The string returned by `colnum_string`. -/
def colnum_string (n : Nat) : String := ⟨colnum_chars n⟩

/-- One step of the loop in `colstring_number`
(src/g74/file_handling.py lines 30-35): for a character of
`string.ascii_letters` the accumulator becomes
`num * 26 + (ord(c.upper()) - ord(A)) + 1`, otherwise it is unchanged.
`Char.isAlpha` is exactly the ASCII-letter test used by the source. -/
def colstring_step (num : Nat) (c : Char) : Nat :=
  if c.isAlpha then num * 26 + (c.toUpper.toNat - 65) + 1 else num

/-- Embeds `colstring_number` (src/g74/file_handling.py lines 30-35). -/
def colstring_number (col : String) : Nat :=
  col.data.foldl colstring_step 0

/-! ## file_handling.py: import_busbars_list -/

/-- A cell of the first spreadsheet column: either a numeric entry or a
text entry. -/
inductive CellVal
  | num (n : Int)
  | txt (s : String)
deriving DecidableEq, Repr

/-- Models `pd.to_numeric(..., errors=coerce)` on one cell: a numeric
cell stays numeric, a text cell is parsed as a decimal number and
becomes the NaN sentinel (`none`) when it does not parse. -/
def to_numeric : CellVal → Option Int
  | CellVal.num n => some n
  | CellVal.txt s =>
      if s.data ≠ [] ∧ s.data.all Char.isDigit then
        some (Int.ofNat (s.data.foldl (fun n c => n * 10 + (c.toNat - 48)) 0))
      else
        none

/-- Embeds `import_busbars_list` (src/g74/file_handling.py lines 38-73):
entries of the first column whose `to_numeric` coercion is null are
collected and reported as errors (`logger.error`), and the returned list
is the original series restricted to the non-null entries, in order
(`busbars_series[~list_of_errors]`).  Returns
(list of busbars, reported error entries). -/
def import_busbars_list (col : List CellVal) : List CellVal × List CellVal :=
  let list_of_errors := col.filter (fun c => (to_numeric c).isNone)
  let list_of_busbars := col.filter (fun c => (to_numeric c).isSome)
  (list_of_busbars, list_of_errors)

/-! ## file_handling.py: worksheet_name_checker -/

/-- The candidate sheet name built on the `i`-th collision:
`'{}({})'.format(orig_sheet_name, i)`. -/
def sheet_variant (orig : String) (i : Nat) : String :=
  orig ++ "(" ++ toString i ++ ")"

/-- The `while sheet_already_exists` loop of `worksheet_name_checker`
(src/g74/file_handling.py lines 92-106), entered when the current name
exists in the workbook.  Each pass increments `i`, builds
`orig(i)`, recomputes existence, and raises `StopIteration`
(modelled as `Except.error ()`) as soon as `i > 100` — the raise is
unconditional at that point, before the loop condition is re-examined.
The loop body runs at most 101 times (the raise fires on the pass with
`i = 101`), so the structural fuel `101` passed by
`worksheet_name_checker` is never exhausted; the fuel-out branch also
answers `Except.error ()`. -/
def wncAux (book : List String) (orig : String) : Nat → Nat → Except Unit String
  | 0, _ => Except.error ()
  | fuel + 1, i =>
      let j := i + 1
      let name := sheet_variant orig j
      let ex := book.contains name
      if j > 100 then Except.error ()
      else if ex then wncAux book orig fuel j
      else Except.ok name

/-- Embeds `worksheet_name_checker` (src/g74/file_handling.py lines
76-116).  The workbook is modelled by the list of its existing sheet
names (`wkbk.book.sheetnames.keys()`). -/
def worksheet_name_checker (book : List String) (sheet_name : String) : Except Unit String :=
  if book.contains sheet_name then wncAux book sheet_name 101 0
  else Except.ok sheet_name

/-! ## constants.py: Machines / SHEPD / G74 constant tables -/

namespace Machines

/-- `Machines.bus` (src/g74/constants.py line 239). -/
def bus : String := "NUMBER"

/-- `Machines.identifier` (line 240). -/
def identifier : String := "ID"

/-- `Machines.rpos` (line 241). -/
def rpos : String := "RPOS"

/-- `Machines.rneg` (line 242). -/
def rneg : String := "RNEG"

/-- `Machines.rzero` (line 243). -/
def rzero : String := "RZERO"

/-- `Machines.xsynch` (line 244). -/
def xsynch : String := "XSYNCH"

/-- `Machines.xtrans` (line 245). -/
def xtrans : String := "XTRANS"

/-- `Machines.xsubtr` (line 246). -/
def xsubtr : String := "XSUBTR"

/-- `Machines.xneg` (line 247). -/
def xneg : String := "XNEG"

/-- `Machines.xzero` (line 248). -/
def xzero : String := "XZERO"

/-- `Machines.zsource` (line 249). -/
def zsource : String := "ZSORCE"

/-- `Machines.rsource` (line 250). -/
def rsource : String := "R Source"

/-- `Machines.xsource` (line 251). -/
def xsource : String := "X Source"

/-- `Machines.t1d0` (line 253). -/
def t1d0 : String := "T\x27d0"

/-- `Machines.t11d0` (line 254). -/
def t11d0 : String := "T\x27\x27d0"

/-- `Machines.t1q0` (line 255). -/
def t1q0 : String := "T\x27q0"

/-- `Machines.t11q0` (line 256). -/
def t11q0 : String := "T\x27\x27q0"

/-- `Machines.xd` (line 258). -/
def xd : String := "Xd"

/-- `Machines.xq` (line 259). -/
def xq : String := "Xq"

/-- `Machines.x1d` (line 260). -/
def x1d : String := "X\x27d"

/-- `Machines.x1q` (line 261). -/
def x1q : String := "X\x27q"

/-- `Machines.x11` (line 262). -/
def x11 : String := "X\x27\x27"

/-- `Machines.bkdy_col_order` (src/g74/constants.py line 269): the
column order of the idev file. -/
def bkdy_col_order : List String :=
  [bus, identifier, t1d0, t11d0, t1q0, t11q0, xd, xq, x1d, x1q, x11]

end Machines

namespace SHEPD

/-- `SHEPD.t1d0` (src/g74/constants.py line 435), default transient
time constant; the float 0.12 is represented exactly as a rational. -/
def t1d0 : ℚ := 0.12

/-- `SHEPD.t11d0` (line 436). -/
def t11d0 : ℚ := 0.04

/-- `SHEPD.t1q0 = t1d0` (line 437). -/
def t1q0 : ℚ := t1d0

/-- `SHEPD.t11q0 = t11d0` (line 438). -/
def t11q0 : ℚ := t11d0

end SHEPD

namespace G74

/-- `G74.x_r_33` (src/g74/constants.py line 340): assumed X/R ratio of
the equivalent motor connected at 33kV.  The float literal 2.76 is
exact in binary-independent decimal terms; it is modelled as the real
number 2.76. -/
def x_r_33 : ℝ := 2.76

/-- `G74.rpos = (1.0/(1.0+x_r_33**2))**0.5` (src/g74/constants.py line
370); `**0.5` on a non-negative float is the square root. -/
noncomputable def rpos : ℝ := Real.sqrt (1 / (1 + x_r_33 ^ 2))

/-- `G74.x11 = (1.0-rpos**2)**0.5` (src/g74/constants.py line 372). -/
noncomputable def x11 : ℝ := Real.sqrt (1 - rpos ^ 2)

end G74

/-! ## psse.py: the PsseControl / BkdyFaultStudy state machine -/

/-- A call into the PSSE engine (or a log event that a claim needs to
observe) made by the modelled methods of `PsseControl` and
`BkdyFaultStudy`. -/
inductive Call
  | aindmaccount
  | cong
  | conl (apiopt : Nat)
  | ordr
  | fact
  | caseLoad
  | solutionParams
  | bkdy
  | warnInduction
  | debugAlreadyConverted
  | logCriticalBkdy
deriving DecidableEq, BEq, Repr

/-- The Python exception classes raised by the modelled methods.
`fuelOut` is the out-of-fuel branch of the bounded loop model and is
never reached (the source loop raises before a fifth pass). -/
inductive PError
  | syntaxError
  | valueError
  | attributeError
  | fuelOut
deriving DecidableEq, Repr

/-- The mutable state of a `PsseControl` instance
(src/g74/psse.py lines 409-421): the loaded SAV path and the
`converted` and `bkdy_issue` flags. -/
structure PsseState where
  sav : String
  converted : Bool
  bkdy_issue : Bool
deriving DecidableEq, Repr

/-- The behaviour of the external PSSE engine during one run: the
status codes and counts each engine function returns.  `conlIter i`
gives `(ierr, number of still unconverted loads)` returned by the
`i`-th `conl(apiopt=2)` call. -/
structure Env where
  indIerr : Nat
  indCount : Nat
  congIerr : Nat
  conlInitIerr : Nat
  conlIter : Nat → Nat × Nat
  conlPostIerr : Nat
  caseIerr : Nat
  bkdyIerr : Nat

/-- Result of a modelled method: the engine calls it performed, and
either its normal return or the exception it raised. -/
structure MRes (α : Type) where
  trace : List Call
  out : Except PError α

/-- Embeds `PsseControl.load_data_case` (src/g74/psse.py lines
423-465): store the new SAV path when one is given (else keep the old
one and reload), call `psspy.case`, raise `ValueError` on a non-zero
status, otherwise set the load-flow tolerances (warn-only, never
raises) and reset `self.converted = False`. -/
def load_data_case (env : Env) (st : PsseState) (pth_sav : Option String) : MRes PsseState :=
  let st1 :=
    match pth_sav with
    | none => st
    | some p => { st with sav := p }
  if env.caseIerr > 0 then
    { trace := [Call.caseLoad], out := Except.error PError.valueError }
  else
    { trace := [Call.caseLoad, Call.solutionParams],
      out := Except.ok { st1 with converted := false } }

/-- Embeds `PsseControl.convert_gen` (src/g74/psse.py lines 642-689):
query the induction-machine count (`aindmaccount`, raising
`SyntaxError` on a bad status); when machines are present log a warning
and set `bkdy_issue = True`; then call `psspy.cong`.  `cong` status 1
or 5 hits `self.logger.critical(...).format(...)`, which raises
`AttributeError` (`critical` returns `None`) before the intended
`SyntaxError`; status 2 only logs a warning; status 3 or 4 raises
`ValueError`; any other status falls through and returns normally. -/
def convert_gen (env : Env) (st : PsseState) : MRes PsseState :=
  if env.indIerr > 0 then
    { trace := [Call.aindmaccount], out := Except.error PError.syntaxError }
  else
    let warnTrace := if env.indCount > 0 then [Call.warnInduction] else []
    let st1 := if env.indCount > 0 then { st with bkdy_issue := true } else st
    let ierr := env.congIerr
    if ierr = 1 ∨ ierr = 5 then
      { trace := Call.aindmaccount :: warnTrace ++ [Call.cong],
        out := Except.error PError.attributeError }
    else if ierr = 2 then
      { trace := Call.aindmaccount :: warnTrace ++ [Call.cong], out := Except.ok st1 }
    else if ierr = 3 ∨ ierr = 4 then
      { trace := Call.aindmaccount :: warnTrace ++ [Call.cong],
        out := Except.error PError.valueError }
    else
      { trace := Call.aindmaccount :: warnTrace ++ [Call.cong], out := Except.ok st1 }

/-- The `while unconverted_loads > 0` loop of `PsseControl.convert_load`
(src/g74/psse.py lines 733-764), entered with `unconverted_loads = 1`
and `i = 0`, so the body always runs at least once.  Each pass
increments `i`, performs the `conl(apiopt=2)` call, raises `ValueError`
on a non-zero status, then raises `SyntaxError` (the
"Uncontrolled iteration" catch) whenever `i > 3` — this check sits
after the call, so a fourth call is performed before the raise, and the
raise fires even if that fourth call converted the remaining loads.
The loop therefore runs at most 4 passes and the structural fuel `4`
passed by `convert_load` is never exhausted. -/
def conl_loop (env : Env) : Nat → Nat → MRes Unit
  | 0, _ => { trace := [], out := Except.error PError.fuelOut }
  | fuel + 1, i =>
      let j := i + 1
      let p := env.conlIter j
      if p.1 > 0 then
        { trace := [Call.conl 2], out := Except.error PError.valueError }
      else if j > 3 then
        { trace := [Call.conl 2], out := Except.error PError.syntaxError }
      else if p.2 > 0 then
        let r := conl_loop env fuel j
        { trace := Call.conl 2 :: r.trace, out := r.out }
      else
        { trace := [Call.conl 2], out := Except.ok () }

/-- Embeds `PsseControl.convert_load` (src/g74/psse.py lines 691-781):
`conl(apiopt=1)` to initialise (raising `ValueError` on a non-zero
status), the bounded `conl(apiopt=2)` loop, then `conl(apiopt=3)` for
post-processing (again raising `ValueError` on a non-zero status). -/
def convert_load (env : Env) : MRes Unit :=
  if env.conlInitIerr > 0 then
    { trace := [Call.conl 1], out := Except.error PError.valueError }
  else
    let r := conl_loop env 4 0
    match r.out with
    | Except.error e => { trace := Call.conl 1 :: r.trace, out := Except.error e }
    | Except.ok _ =>
        if env.conlPostIerr > 0 then
          { trace := Call.conl 1 :: r.trace ++ [Call.conl 3],
            out := Except.error PError.valueError }
        else
          { trace := Call.conl 1 :: r.trace ++ [Call.conl 3], out := Except.ok () }

/-- Embeds `PsseControl.convert_sav_case` (src/g74/psse.py lines
601-640): when not yet converted, run `convert_gen` then `convert_load`
and set `converted = True`; when already converted, only log a debug
message.  Afterwards `psspy.ordr` and `psspy.fact` are always invoked;
their non-zero statuses are logged as critical but are non-fatal and do
not change the state, so their status codes do not appear here. -/
def convert_sav_case (env : Env) (st : PsseState) : MRes PsseState :=
  let step1 : MRes PsseState :=
    if st.converted then
      { trace := [Call.debugAlreadyConverted], out := Except.ok st }
    else
      let g := convert_gen env st
      match g.out with
      | Except.error e => { trace := g.trace, out := Except.error e }
      | Except.ok st1 =>
          let l := convert_load env
          match l.out with
          | Except.error e => { trace := g.trace ++ l.trace, out := Except.error e }
          | Except.ok _ =>
              { trace := g.trace ++ l.trace,
                out := Except.ok { st1 with converted := true } }
  match step1.out with
  | Except.error _ => step1
  | Except.ok st2 =>
      { trace := step1.trace ++ [Call.ordr, Call.fact], out := Except.ok st2 }

/-- Embeds `BkdyFaultStudy.main` (src/g74/psse.py lines 808-837):
convert the SAV case, then invoke the break-duty solver `psspy.bkdy`
once (with the single `constants.fault_time`).  A non-zero `bkdy`
status is only logged as critical (`self.logger.critical(...)`);
no exception is raised and `main` returns normally. -/
def bkdy_main (env : Env) (st : PsseState) : MRes PsseState :=
  let c := convert_sav_case env st
  match c.out with
  | Except.error _ => c
  | Except.ok st1 =>
      if env.bkdyIerr > 0 then
        { trace := c.trace ++ [Call.bkdy, Call.logCriticalBkdy], out := Except.ok st1 }
      else
        { trace := c.trace ++ [Call.bkdy], out := Except.ok st1 }

/-! ## psse.py: MachineData.update / produce_idev -/

/-- The string-valued class attributes of `constants.Machines`
(src/g74/constants.py lines 239-262), as Python attribute lookup sees
them: `machines_attr name` is the value of the class attribute called
`name`, and `none` when the class defines no such attribute (so that
reading it raises `AttributeError`).  The reactance column names are
defined under `xsubtr` / `xtrans` / `xsynch`; there is no `x_subtr`,
`x_trans` or `x_synch` attribute. -/
def machines_attr (name : String) : Option String :=
  if name = "bus" then some Machines.bus
  else if name = "identifier" then some Machines.identifier
  else if name = "rpos" then some Machines.rpos
  else if name = "rneg" then some Machines.rneg
  else if name = "rzero" then some Machines.rzero
  else if name = "xsynch" then some Machines.xsynch
  else if name = "xtrans" then some Machines.xtrans
  else if name = "xsubtr" then some Machines.xsubtr
  else if name = "xneg" then some Machines.xneg
  else if name = "xzero" then some Machines.xzero
  else if name = "zsource" then some Machines.zsource
  else if name = "rsource" then some Machines.rsource
  else if name = "xsource" then some Machines.xsource
  else if name = "t1d0" then some Machines.t1d0
  else if name = "t11d0" then some Machines.t11d0
  else if name = "t1q0" then some Machines.t1q0
  else if name = "t11q0" then some Machines.t11q0
  else if name = "xd" then some Machines.xd
  else if name = "xq" then some Machines.xq
  else if name = "x1d" then some Machines.x1d
  else if name = "x1q" then some Machines.x1q
  else if name = "x11" then some Machines.x11
  else none

/-- A sequence of attribute reads on `constants.Machines`, in source
order: the first read of a missing attribute raises `AttributeError`
and abandons the rest. -/
def attr_chain : List String → Except PError (List String)
  | [] => Except.ok []
  | a :: rest =>
      match machines_attr a with
      | none => Except.error PError.attributeError
      | some v =>
          match attr_chain rest with
          | Except.error e => Except.error e
          | Except.ok vs => Except.ok (v :: vs)

/-- Embeds the attribute reads of `MachineData.update`
(src/g74/psse.py lines 311-356) in evaluation order: `self.c.bus` for
the `amachint` call (line 325), then `self.c.x_subtr`,
`self.c.x_trans`, `self.c.x_synch` while building the `amachreal`
argument tuple (line 329), then `self.c.identifier` (line 333), where
`self.c = constants.Machines` (line 307).  The read of `x_subtr` finds
no attribute, so `update` raises `AttributeError` before any engine
data or DataFrame exists. -/
def machine_update : Except PError (List String) :=
  attr_chain ["bus", "x_subtr", "x_trans", "x_synch", "identifier"]

/-- Embeds `MachineData.produce_idev` (src/g74/psse.py lines 358-402)
up to its file write.  Its first statement is `self.update()`, whose
`AttributeError` propagates.  Were `update` somehow to return, the
body's own first assignments `df[self.c.x11] = df[self.c.x_subtr]`,
`df[self.c.x1d] = df[self.c.x_trans]`, `df[self.c.xd] =
df[self.c.x_synch]` (lines 370-372) read the same missing attributes;
the later DataFrame manipulation and the `to_csv` / sentinel write are
unreachable on every path, so no idev artifact is ever produced and
the write itself is not modelled further. -/
def produce_idev : Except PError Unit :=
  match machine_update with
  | Except.error e => Except.error e
  | Except.ok _ =>
      match attr_chain ["x11", "x_subtr", "x1d", "x_trans", "xd", "x_synch"] with
      | Except.error e => Except.error e
      | Except.ok _ => Except.ok ()

/-! ## Concrete inputs used by counterexamples and witnesses -/

/-- An engine in which every call succeeds at once (all statuses 0, no
induction machines, loads converted by the first iteration). -/
def env_clean : Env :=
  { indIerr := 0, indCount := 0, congIerr := 0, conlInitIerr := 0,
    conlIter := fun _ => (0, 0), conlPostIerr := 0, caseIerr := 0, bkdyIerr := 0 }

/-- A fresh `PsseControl` state (src/g74/psse.py lines 409-421):
nothing loaded, not converted, no bkdy issue. -/
def st_initial : PsseState := { sav := "", converted := false, bkdy_issue := false }

/-- An engine identical to `env_clean` except that the break-duty
solver `psspy.bkdy` returns status 1. -/
def env_bkdy_fail : Env :=
  { indIerr := 0, indCount := 0, congIerr := 0, conlInitIerr := 0,
    conlIter := fun _ => (0, 0), conlPostIerr := 0, caseIerr := 0, bkdyIerr := 1 }

/-- An engine identical to `env_clean` except that every
`conl(apiopt=2)` call succeeds (status 0) but always reports one load
still unconverted. -/
def env_stuck : Env :=
  { indIerr := 0, indCount := 0, congIerr := 0, conlInitIerr := 0,
    conlIter := fun _ => (0, 1), conlPostIerr := 0, caseIerr := 0, bkdyIerr := 0 }

/-- An engine identical to `env_clean` except that the model holds
three induction machines. -/
def env_induction : Env :=
  { indIerr := 0, indCount := 3, congIerr := 0, conlInitIerr := 0,
    conlIter := fun _ => (0, 0), conlPostIerr := 0, caseIerr := 0, bkdyIerr := 0 }

/-- The busbar column of the spec's example: `[10, "abc", 20, 30, 40,
100, "xyz", 50]`. -/
def busbar_example_column : List CellVal :=
  [CellVal.num 10, CellVal.txt "abc", CellVal.num 20, CellVal.num 30,
   CellVal.num 40, CellVal.num 100, CellVal.txt "xyz", CellVal.num 50]

/-- A workbook already holding the sheets `TEST` and `TEST(1)` ..
`TEST(100)`: the smallest workbook on which the collision loop raises.
-/
def stuffed_book : List String :=
  "TEST" :: (List.range 100).map (fun k => sheet_variant "TEST" (k + 1))

/-! ## Theorems -/

set_option maxRecDepth 10000

/-- C4: the G74 equivalent-machine per-unit parameters, computed from
the fixed assumed X/R ratio `x_r_33 = 2.76` as
`rpos = sqrt(1/(1+x_r_33^2))` and `x11 = sqrt(1-rpos^2)`, lie exactly
on the unit circle in real arithmetic: `rpos^2 + x11^2 = 1`. -/
theorem g74_rpos_x11_unit_circle : G74.rpos ^ 2 + G74.x11 ^ 2 = 1 := by
  have hx : (0 : ℝ) ≤ 1 / (1 + G74.x_r_33 ^ 2) := by positivity
  have h1 : G74.rpos ^ 2 = 1 / (1 + G74.x_r_33 ^ 2) := Real.sq_sqrt hx
  have hle : 1 / (1 + G74.x_r_33 ^ 2) ≤ (1 : ℝ) := by
    rw [div_le_one (by positivity)]
    nlinarith [sq_nonneg G74.x_r_33]
  have h2 : G74.x11 ^ 2 = 1 - G74.rpos ^ 2 := by
    have : (0 : ℝ) ≤ 1 - G74.rpos ^ 2 := by rw [h1]; linarith
    exact Real.sq_sqrt this
  rw [h2]; ring

/-- C9: every successful `load_data_case` call resets the conversion
state: whatever the prior state and whichever SAV path (new or reload)
was given, the returned state has `converted = False`. -/
theorem load_data_case_resets_converted :
    ∀ (env : Env) (st : PsseState) (pth_sav : Option String) (st2 : PsseState),
      (load_data_case env st pth_sav).out = Except.ok st2 → st2.converted = false := by
  intro env st pth_sav st2 h
  unfold load_data_case at h
  by_cases hc : env.caseIerr > 0
  · simp [hc] at h
  · simp [hc] at h
    rw [← h]

/-- C9 witness: the theorem applied to the clean engine, the initial
state and a reload (`pth_sav = None`). -/
theorem load_data_case_resets_converted_witness :
    (load_data_case env_clean st_initial none).out =
        Except.ok { sav := "", converted := false, bkdy_issue := false } ∧
    ({ sav := "", converted := false, bkdy_issue := false } : PsseState).converted = false :=
  ⟨rfl, load_data_case_resets_converted env_clean st_initial none _ rfl⟩

/-- C2: conversion is idempotent — for every engine and every state
whose `converted` flag is already `True`, `convert_sav_case` returns
the state unchanged (still converted) and performs no `psspy.cong`
(generator-conversion) and no `psspy.conl` (load-conversion) call. -/
theorem convert_sav_case_idempotent :
    ∀ (env : Env) (st : PsseState), st.converted = true →
      (convert_sav_case env st).out = Except.ok st ∧
      Call.cong ∉ (convert_sav_case env st).trace ∧
      (∀ k, Call.conl k ∉ (convert_sav_case env st).trace) := by
  intro env st h
  have htr : convert_sav_case env st =
      { trace := [Call.debugAlreadyConverted, Call.ordr, Call.fact],
        out := Except.ok st } := by
    unfold convert_sav_case
    simp [h]
  rw [htr]
  refine ⟨rfl, by simp, by simp⟩

/-- C2 witness: the theorem applied to the clean engine and an
already-converted state. -/
theorem convert_sav_case_idempotent_witness :
    ({ sav := "x", converted := true, bkdy_issue := false } : PsseState).converted = true ∧
    (convert_sav_case env_clean { sav := "x", converted := true, bkdy_issue := false }).out =
      Except.ok { sav := "x", converted := true, bkdy_issue := false } :=
  ⟨rfl, (convert_sav_case_idempotent env_clean _ rfl).1⟩

/-- C8: during `convert_gen` (with the induction-machine query and the
`cong` call succeeding), if induction machines are present then
`bkdy_issue` is set to `True` and a warning is emitted while the
conversion still returns normally; if none are present the state is
returned unchanged and no such warning is emitted. -/
theorem convert_gen_induction_flag :
    ∀ (env : Env) (st : PsseState), env.indIerr = 0 → env.congIerr = 0 →
      (env.indCount > 0 →
        (convert_gen env st).out = Except.ok { st with bkdy_issue := true } ∧
        Call.warnInduction ∈ (convert_gen env st).trace) ∧
      (env.indCount = 0 →
        (convert_gen env st).out = Except.ok st ∧
        Call.warnInduction ∉ (convert_gen env st).trace) := by
  intro env st hInd hCong
  constructor
  · intro hc
    have htr : convert_gen env st =
        { trace := [Call.aindmaccount, Call.warnInduction, Call.cong],
          out := Except.ok { st with bkdy_issue := true } } := by
      unfold convert_gen
      simp [hInd, hCong, hc]
    rw [htr]
    exact ⟨rfl, by simp⟩
  · intro hc
    have htr : convert_gen env st =
        { trace := [Call.aindmaccount, Call.cong], out := Except.ok st } := by
      unfold convert_gen
      simp [hInd, hCong, hc]
    rw [htr]
    exact ⟨rfl, by simp⟩

/-- C8 witness: the theorem applied to an engine holding three
induction machines and to the clean engine holding none. -/
theorem convert_gen_induction_flag_witness :
    ((convert_gen env_induction st_initial).out =
        Except.ok { st_initial with bkdy_issue := true } ∧
      Call.warnInduction ∈ (convert_gen env_induction st_initial).trace) ∧
    ((convert_gen env_clean st_initial).out = Except.ok st_initial ∧
      Call.warnInduction ∉ (convert_gen env_clean st_initial).trace) :=
  ⟨(convert_gen_induction_flag env_induction st_initial rfl rfl).1 (by decide),
   (convert_gen_induction_flag env_clean st_initial rfl rfl).2 rfl⟩

/-- C1 counterexample: with an engine whose break-duty solver returns
status 1 (and everything else succeeding), `BkdyFaultStudy.main`
returns normally — `Except.ok`, not an error — refuting the claim that
a non-zero solver status raises an error. -/
theorem bkdy_main_counterexample :
    env_bkdy_fail.bkdyIerr > 0 ∧
    (bkdy_main env_bkdy_fail st_initial).out =
      Except.ok { sav := "", converted := true, bkdy_issue := false } :=
  ⟨Nat.one_pos, rfl⟩

/-- C1 amended: whenever the conversion step succeeds and the bkdy
solver returns a non-zero status, `BkdyFaultStudy.main` still invokes
the solver, logs a critical message, and returns normally with the
converted state — no exception is raised. -/
theorem bkdy_main_nonzero_status_logs_only :
    ∀ (env : Env) (st st1 : PsseState),
      (convert_sav_case env st).out = Except.ok st1 → env.bkdyIerr > 0 →
      (bkdy_main env st).out = Except.ok st1 ∧
      Call.bkdy ∈ (bkdy_main env st).trace ∧
      Call.logCriticalBkdy ∈ (bkdy_main env st).trace := by
  intro env st st1 h hpos
  have htr : bkdy_main env st =
      { trace := (convert_sav_case env st).trace ++ [Call.bkdy, Call.logCriticalBkdy],
        out := Except.ok st1 } := by
    unfold bkdy_main
    simp only [h, hpos, if_true, gt_iff_lt]
  rw [htr]
  refine ⟨rfl, by simp, by simp⟩

/-- C1 amended witness: the amended theorem applied to the engine
whose bkdy solver returns status 1. -/
theorem bkdy_main_nonzero_status_logs_only_witness :
    (convert_sav_case env_bkdy_fail st_initial).out =
      Except.ok { sav := "", converted := true, bkdy_issue := false } ∧
    env_bkdy_fail.bkdyIerr > 0 ∧
    (bkdy_main env_bkdy_fail st_initial).out =
      Except.ok { sav := "", converted := true, bkdy_issue := false } :=
  ⟨rfl, Nat.one_pos,
   (bkdy_main_nonzero_status_logs_only env_bkdy_fail st_initial _ rfl Nat.one_pos).1⟩

/-- helper: the loop performs at most `fuel` conversion calls -/
theorem conl_loop_count_le :
    ∀ (env : Env) (fuel i : Nat),
      ((conl_loop env fuel i).trace.count (Call.conl 2)) ≤ fuel := by
  intro env fuel
  have hb : (Call.conl 2 == Call.conl 2) = true := rfl
  induction fuel with
  | zero => intro i; simp [conl_loop]
  | succ fuel ih =>
    intro i
    unfold conl_loop
    by_cases h1 : (env.conlIter (i + 1)).1 > 0
    · simp [h1, List.count_cons, hb]
    · by_cases h2 : i + 1 > 3
      · simp [h1, h2, List.count_cons, hb]
      · by_cases h3 : (env.conlIter (i + 1)).2 > 0
        · simp only [h1, h2, h3, if_true, if_false]
          have := ih (i + 1)
          simp [List.count_cons, hb]
          omega
        · simp [h1, h2, h3, List.count_cons, hb]

/-- C3 counterexample: with an engine whose `conl(apiopt=2)` calls
always succeed but always leave one load unconverted, `convert_load`
performs four conversion iterations — not three — before raising the
`SyntaxError` iteration-bound abort, refuting the claim that no 4th
conversion iteration is ever performed. -/
theorem convert_load_counterexample :
    (convert_load env_stuck).out = Except.error PError.syntaxError ∧
    (convert_load env_stuck).trace.count (Call.conl 2) = 4 :=
  ⟨rfl, rfl⟩

/-- C3 amended: when unconverted loads remain after 3 conversion
iterations, the bound check (placed after the call) lets a 4th
conversion call run and then aborts with the fatal `SyntaxError`
(never looping further); in every run at most 4 conversion calls are
performed. -/
theorem convert_load_iteration_bound :
    (∀ env : Env,
        env.conlInitIerr = 0 →
        (∀ i, (env.conlIter i).1 = 0) →
        (∀ i, (env.conlIter i).2 > 0) →
        (convert_load env).out = Except.error PError.syntaxError ∧
        (convert_load env).trace.count (Call.conl 2) = 4) ∧
    (∀ env : Env, (convert_load env).trace.count (Call.conl 2) ≤ 4) := by
  constructor
  · intro env hInit h1 h2
    have hloop : conl_loop env 4 0 =
        { trace := [Call.conl 2, Call.conl 2, Call.conl 2, Call.conl 2],
          out := Except.error PError.syntaxError } := by
      rw [show (4 : Nat) = 3 + 1 from rfl, conl_loop]
      simp only [Nat.zero_add, h1 1, h2 1]
      norm_num
      rw [show (3 : Nat) = 2 + 1 from rfl, conl_loop]
      simp only [h1 2, h2 2]
      norm_num
      rw [show (2 : Nat) = 1 + 1 from rfl, conl_loop]
      simp only [h1 3, h2 3]
      norm_num
      rw [show (1 : Nat) = 0 + 1 from rfl, conl_loop]
      simp only [h1 4, h2 4]
      norm_num
    have hcv : convert_load env =
        { trace := Call.conl 1 :: [Call.conl 2, Call.conl 2, Call.conl 2, Call.conl 2],
          out := Except.error PError.syntaxError } := by
      unfold convert_load
      simp [hInit, hloop]
    rw [hcv]
    exact ⟨rfl, rfl⟩
  · intro env
    have hle := conl_loop_count_le env 4 0
    have hb1 : (Call.conl 1 == Call.conl 2) = false := rfl
    have hb3 : (Call.conl 3 == Call.conl 2) = false := rfl
    unfold convert_load
    by_cases hInit : env.conlInitIerr > 0
    · simp [hInit, List.count_cons, hb1]
    · simp only [hInit, if_false]
      cases hout : (conl_loop env 4 0).out with
      | error e =>
        simp [hout, List.count_cons, hb1]
        omega
      | ok u =>
        by_cases hPost : env.conlPostIerr > 0
        · simp [hout, hPost, List.count_cons, List.count_append, hb1, hb3]
          omega
        · simp [hout, hPost, List.count_cons, List.count_append, hb1, hb3]
          omega

/-- C3 amended witness: the amended theorem applied to the stuck
engine. -/
theorem convert_load_iteration_bound_witness :
    env_stuck.conlInitIerr = 0 ∧
    (convert_load env_stuck).out = Except.error PError.syntaxError ∧
    (convert_load env_stuck).trace.count (Call.conl 2) = 4 ∧
    (convert_load env_stuck).trace.count (Call.conl 2) ≤ 4 :=
  ⟨rfl,
   (convert_load_iteration_bound.1 env_stuck rfl (fun _ => rfl) (fun _ => Nat.one_pos)).1,
   (convert_load_iteration_bound.1 env_stuck rfl (fun _ => rfl) (fun _ => Nat.one_pos)).2,
   convert_load_iteration_bound.2 env_stuck⟩

/-- C5 (code bug): the idev artifact the claim describes is never
produced.  `constants.Machines` holds the reactance column names under
`xsubtr` / `xtrans` / `xsynch`, but `MachineData.update` — the first
statement executed by `produce_idev` — reads the nonexistent attribute
`x_subtr`, so every invocation of `produce_idev` raises
`AttributeError` before any DataFrame or file exists, contradicting
both the claim and the repository's own test `test_machine_idev`. -/
theorem produce_idev_attribute_error :
    machines_attr "xsubtr" = some "XSUBTR" ∧
    machines_attr "x_subtr" = none ∧
    machine_update = Except.error PError.attributeError ∧
    produce_idev = Except.error PError.attributeError :=
  ⟨rfl, rfl, rfl, rfl⟩

/-- helper: the characters emitted by `colnum_chars` are ASCII capitals -/
theorem colnum_char_facts : ∀ r : Nat, r < 26 →
    (Char.ofNat (65 + r)).isAlpha = true ∧
    (Char.ofNat (65 + r)).isUpper = true ∧
    (Char.ofNat (65 + r)).toUpper = Char.ofNat (65 + r) ∧
    (Char.ofNat (65 + r)).toNat = 65 + r := by decide

/-- helper: folding `colstring_step` over `colnum_chars n` recovers `n` -/
theorem colnum_chars_foldl : ∀ n : Nat, (colnum_chars n).foldl colstring_step 0 = n := by
  intro n
  induction n using Nat.strong_induction_on with
  | _ n ih =>
    match n with
    | 0 => simp [colnum_chars]
    | n + 1 =>
      have h26 : n % 26 < 26 := Nat.mod_lt n (by norm_num)
      obtain ⟨ha, _, hu, ht⟩ := colnum_char_facts (n % 26) h26
      have ihq := ih (n / 26) (Nat.lt_succ_of_le (Nat.div_le_self n 26))
      rw [colnum_chars, List.foldl_append, ihq]
      simp only [List.foldl, colstring_step, ha, if_true, hu, ht]
      have := Nat.div_add_mod n 26
      omega

/-- helper: every character of `colnum_chars n` is an uppercase letter -/
theorem colnum_chars_upper : ∀ n : Nat, ∀ c ∈ colnum_chars n, c.isUpper = true := by
  intro n
  induction n using Nat.strong_induction_on with
  | _ n ih =>
    match n with
    | 0 => simp [colnum_chars]
    | n + 1 =>
      intro c hc
      rw [colnum_chars] at hc
      rcases List.mem_append.mp hc with h | h
      · exact ih (n / 26) (Nat.lt_succ_of_le (Nat.div_le_self n 26)) c h
      · have h26 : n % 26 < 26 := Nat.mod_lt n (by norm_num)
        obtain ⟨_, hup, _, _⟩ := colnum_char_facts (n % 26) h26
        simp at h
        rw [h]
        exact hup

/-- C10: the spreadsheet column-label helpers are mutually inverse:
for every `n ≥ 1`, `colstring_number (colnum_string n) = n`, and
`colnum_string n` is a non-empty string of uppercase letters. -/
theorem colnum_colstring_roundtrip :
    ∀ n : Nat, 1 ≤ n →
      colstring_number (colnum_string n) = n ∧
      colnum_string n ≠ "" ∧
      (∀ c ∈ (colnum_string n).data, c.isUpper = true) := by
  intro n hn
  refine ⟨colnum_chars_foldl n, ?_, colnum_chars_upper n⟩
  match n, hn with
  | n + 1, _ =>
    intro h
    have : colnum_chars (n + 1) = [] := congrArg String.data h
    rw [colnum_chars] at this
    simp at this

/-- C10 witness: the theorem applied at `n = 28`. -/
theorem colnum_colstring_roundtrip_witness :
    1 ≤ 28 ∧ colstring_number (colnum_string 28) = 28 :=
  ⟨by norm_num, (colnum_colstring_roundtrip 28 (by norm_num)).1⟩

/-- C6: busbar-list import keeps the numeric entries of the first
column in their original order and reports each non-numeric entry as
an error rather than silently dropping it: on the example column the
returned list is `[10, 20, 30, 40, 100, 50]`, exactly the two entries
`"abc"` and `"xyz"` are reported as errors, and in general the kept
and reported entries together account for the whole column. -/
theorem import_busbars_list_spec :
    (import_busbars_list busbar_example_column).1 =
      [CellVal.num 10, CellVal.num 20, CellVal.num 30, CellVal.num 40,
       CellVal.num 100, CellVal.num 50] ∧
    (import_busbars_list busbar_example_column).2.length = 2 ∧
    (import_busbars_list busbar_example_column).2 = [CellVal.txt "abc", CellVal.txt "xyz"] ∧
    ∀ col : List CellVal,
      (import_busbars_list col).1.length + (import_busbars_list col).2.length = col.length := by
  refine ⟨by decide, by decide, by decide, ?_⟩
  intro col
  induction col with
  | nil => rfl
  | cons c cs ih =>
    simp only [import_busbars_list] at ih ⊢
    cases h : to_numeric c <;>
      simp [List.filter_cons, h] at ih ⊢ <;> omega

/-- C6 witness: the universal part of the theorem applied to a
one-cell column. -/
theorem import_busbars_list_spec_witness :
    (import_busbars_list [CellVal.num 7]).1.length + (import_busbars_list [CellVal.num 7]).2.length
      = ([CellVal.num 7] : List CellVal).length :=
  import_busbars_list_spec.2.2.2 [CellVal.num 7]

/-- C7: worksheet-name deduplication returns a non-existing requested
name unchanged; when `TEST` exists (and `TEST(1)` is free) it returns
`TEST(1)`; and on a workbook already holding `TEST` and
`TEST(1)`..`TEST(100)` — i.e. after 100 prior collisions — it raises
the `StopIteration`-class failure instead of returning a name. -/
theorem worksheet_name_checker_spec :
    (∀ (book : List String) (name : String),
        book.contains name = false → worksheet_name_checker book name = Except.ok name) ∧
    (∀ book : List String, book.contains "TEST" = true → book.contains "TEST(1)" = false →
        worksheet_name_checker book "TEST" = Except.ok "TEST(1)") ∧
    worksheet_name_checker stuffed_book "TEST" = Except.error () := by
  refine ⟨?_, ?_, rfl⟩
  · intro book name h
    simp at h
    simp [worksheet_name_checker, h]
  · intro book h1 h2
    have hv : sheet_variant "TEST" 1 = "TEST(1)" := rfl
    simp at h2
    simp only [worksheet_name_checker, h1, if_true]
    rw [show (101 : Nat) = 100 + 1 from rfl, wncAux]
    simp [hv, h2]

/-- C7 witness: the first two parts of the theorem applied to concrete
workbooks. -/
theorem worksheet_name_checker_spec_witness :
    (["A"].contains "B" = false ∧ worksheet_name_checker ["A"] "B" = Except.ok "B") ∧
    (["TEST"].contains "TEST" = true ∧ ["TEST"].contains "TEST(1)" = false ∧
      worksheet_name_checker ["TEST"] "TEST" = Except.ok "TEST(1)") :=
  ⟨⟨rfl, worksheet_name_checker_spec.1 ["A"] "B" rfl⟩,
   ⟨rfl, rfl, worksheet_name_checker_spec.2.1 ["TEST"] rfl rfl⟩⟩
